import Mathlib

/-!
# Verification of the Vigil MLOps batch monitoring job

A shallow embedding of `src/api/monitoring_job.py` (the batch drift-monitoring
cycle): the Window Fetcher (`fetch_data_from_db`), the report preprocessing
(`run_evidently_report`), the Metrics Recorder (`process_and_log_metrics`),
the Alert Dispatcher (`send_slack_alert`, `check_for_drift_and_alert`) and the
Orchestrator (`main_monitoring_job`).

Timestamps are modelled as integers (seconds); `timedelta(hours=h)` is
`h * 3600`.  External effects (the SQL query, the transaction commit, the
HTTP post, the Evidently drift verdict) enter the model as explicit outcome
parameters collected in a `World`; each Lean function then transcribes the
corresponding Python control flow over those outcomes.
-/

namespace Vigil

/-- One row of the `prediction_logs` table, as selected by the fetch query
(`SELECT feature_1, feature_2, prediction, target, prediction_time`).
Values are modelled as integers; only `prediction_time` matters to the
claims about the Window Fetcher. -/
structure PredictionLog where
  feature_1 : Int
  feature_2 : Int
  prediction : Int
  target : Option Int
  prediction_time : Int
deriving Repr, DecidableEq

/-- Failure modes of the window-fetch query, mirroring the two `except`
arms of `fetch_data_from_db` (`exc.OperationalError` and bare
`Exception`). -/
inductive FetchFailure where
  | operationalError
  | otherError
deriving Repr, DecidableEq

/-- The raw SQL read: `WHERE prediction_time BETWEEN :start_time AND :end_time`.
SQL `BETWEEN` is inclusive at both bounds.  A `some f` outcome models the
query raising; the surrounding function catches it. -/
def run_query (db : List PredictionLog) (s e : Int)
    (failure : Option FetchFailure) : Except FetchFailure (List PredictionLog) :=
  match failure with
  | some f => .error f
  | none => .ok (db.filter fun r => s ≤ r.prediction_time ∧ r.prediction_time ≤ e)

/-- `fetch_data_from_db`: computes `end_time = now()`,
`start_time = end_time - timedelta(hours=lookback_hours)`, runs the query and
returns `(df, start_time, end_time)`.  Both `except` arms return
`(pd.DataFrame(), start_time, end_time)`, so the function itself is total:
it always returns the rows paired with the two bounds and never propagates
an exception. -/
def fetch_data_from_db (db : List PredictionLog) (now : Int)
    (lookback_hours : Int) (failure : Option FetchFailure) :
    List PredictionLog × Int × Int :=
  let end_time := now
  let start_time := end_time - lookback_hours * 3600
  match run_query db start_time end_time failure with
  | .ok df => (df, start_time, end_time)
  | .error _ => ([], start_time, end_time)

/-- The window the specification describes for C4: the half-open interval
`[start_time, end_time)`.  Stated from the spec's words, to be compared with
what `fetch_data_from_db` actually returns. -/
def specHalfOpenWindow (db : List PredictionLog) (now : Int)
    (lookback_hours : Int) : List PredictionLog :=
  db.filter fun r => now - lookback_hours * 3600 ≤ r.prediction_time ∧ r.prediction_time < now

/-! ## Report preprocessing (`run_evidently_report`, lines 47-71) -/

/-- The `ColumnMapping` object built by `run_evidently_report`:
`numerical_features`, and the `prediction` / `target` column declarations
(`None` means no such column takes part in the analysis). -/
structure ColumnMapping where
  numerical_features : List String
  prediction : Option String
  target : Option String
deriving Repr, DecidableEq

/-- The `for column_name in required_features` loop: any required feature
missing from a dataframe is added (as a `pd.NA` column), so afterwards both
dataframes contain `feature_1` and `feature_2`.  Modelled on column names. -/
def ensure_required_features (cols : List String) : List String :=
  cols ++ (["feature_1", "feature_2"].filter fun c => ¬ c ∈ cols)

/-- The `df.drop(columns=['prediction'], inplace=True)` step applied to both
dataframes before the report runs. -/
def drop_prediction_column (cols : List String) : List String :=
  cols.filter fun c => c ≠ "prediction"

/-- The columns of a dataframe as passed into `report.run`, after the two
preprocessing steps of `run_evidently_report`. -/
def report_input_cols (cols : List String) : List String :=
  drop_prediction_column (ensure_required_features cols)

/-- The column mapping handed to `report.run`:
`numerical_features = ['feature_1', 'feature_2']`, `prediction = None`,
`target = None`. -/
def report_column_mapping : ColumnMapping :=
  { numerical_features := ["feature_1", "feature_2"]
    prediction := none
    target := none }

/-- The set of columns an Evidently drift preset compares under a column
mapping: the declared feature columns plus the prediction and target columns
when they are declared (`None` excludes them). -/
def comparisonColumns (m : ColumnMapping) : List String :=
  m.numerical_features
    ++ (match m.prediction with | some p => [p] | none => [])
    ++ (match m.target with | some t => [t] | none => [])

/-! ## The report dictionary and the modelled detector -/

/-- The fields of `report.as_dict()` that `process_and_log_metrics` reads:
`metrics[0].result.dataset_drift`, `metrics[0].result.number_of_drifted_features`
(the `DataDriftPreset` section) and `metrics[1].result.rows_count`
(the `DataQualityPreset` section). -/
structure ReportDict where
  dataset_drift : Bool
  number_of_drifted_features : Nat
  rows_count : Nat
deriving Repr, DecidableEq

/-- Modelled from the spec: the Drift Detector itself is the external
Evidently library (`Report(metrics=[DataDriftPreset(), DataQualityPreset()])`),
not code of this repository.  Per §4.2 its output is "a DatasetDriftSummary
plus the current window's row count": the drift verdict (dataset flag and
drifted-feature count) is an unconstrained parameter of the world, and the
quality section's `rows_count` is the row count of the current dataframe. -/
def run_evidently_report (verdict : Bool × Nat) (current_rows : Nat) : ReportDict :=
  { dataset_drift := verdict.1
    number_of_drifted_features := verdict.2
    rows_count := current_rows }

/-! ## Metric rows and the Metrics Recorder (`process_and_log_metrics`) -/

/-- A `MonitoringMetric` row as constructed in `process_and_log_metrics`.
`report_summary` is the JSON payload `{"rows_checked": _, "drifted_features": _}`
on the summary row and `None` on the count row. -/
structure MonitoringMetric where
  timestamp : Int
  data_drift_score : Rat
  num_drifted_features : Nat
  metric_name : String
  metric_value : Rat
  report_summary : Option (Nat × Nat)
  model_version : String
  batch_start_time : Int
  batch_end_time : Int
deriving Repr, DecidableEq

/-- Configuration read from the environment at process start. -/
structure Config where
  model_version : String
  batch_hours : Int
  slack_webhook_url : String
  drift_threshold : Rat
deriving Repr, DecidableEq

/-- The defaults: `BATCH_HOURS = 24`, `SLACK_WEBHOOK_URL = ""`,
`DRIFT_THRESHOLD = float(0)`, `MODEL_VERSION = "v1.0"`. -/
def defaultConfig : Config :=
  { model_version := "v1.0"
    batch_hours := 24
    slack_webhook_url := ""
    drift_threshold := 0 }

/-- The `drift_log` row (`metric_name="data_drift_summary"`), built from the
report exactly as lines 75-96 do: `data_drift_score` is `1.0` when the
boolean `dataset_drift` flag is set and `0.0` otherwise, and `metric_value`
repeats the score. -/
def mk_drift_log (cfg : Config) (report : ReportDict) (ts s e : Int) :
    MonitoringMetric :=
  let score : Rat := if report.dataset_drift then 1 else 0
  { timestamp := ts
    data_drift_score := score
    num_drifted_features := report.number_of_drifted_features
    metric_name := "data_drift_summary"
    metric_value := score
    report_summary := some (report.rows_count, report.number_of_drifted_features)
    model_version := cfg.model_version
    batch_start_time := s
    batch_end_time := e }

/-- The `count_log` row (`metric_name="prediction_count"`), built exactly as
lines 98-108 do: constant zero drift fields, `metric_value` the report's
`rows_count`, no summary payload. -/
def mk_count_log (cfg : Config) (report : ReportDict) (ts s e : Int) :
    MonitoringMetric :=
  { timestamp := ts
    data_drift_score := 0
    num_drifted_features := 0
    metric_name := "prediction_count"
    metric_value := (report.rows_count : Rat)
    report_summary := none
    model_version := cfg.model_version
    batch_start_time := s
    batch_end_time := e }

/-! ## Alert Dispatcher (`send_slack_alert`, `check_for_drift_and_alert`) -/

/-- Possible outcomes of the single `requests.post(..., timeout=5)` call:
a response (carrying `response.ok` and the status code), or a raised
exception (network error / timeout).  The dispatcher catches the latter. -/
inductive PostOutcome where
  | resp (ok : Bool) (status : Nat)
  | raised (msg : String)
deriving Repr, DecidableEq

/-- The raw `requests.post` call as an exception-raising step. -/
def requests_post (outcome : PostOutcome) : Except String (Bool × Nat) :=
  match outcome with
  | .resp ok status => .ok (ok, status)
  | .raised msg => .error msg

/-- What one `send_slack_alert` call did: how many HTTP posts it made and
whether a post got an `ok` response. -/
structure SlackTrace where
  posts : Nat
  delivered : Bool
deriving Repr, DecidableEq

/-- `send_slack_alert`: with no webhook URL configured it logs and returns
(no post); otherwise it makes one post inside `try`, logging success on
`response.ok`, logging the status on a non-success response, and catching
every exception.  Every branch returns normally — the `Except` from
`requests_post` never escapes this function. -/
def send_slack_alert (url : String) (outcome : PostOutcome) : SlackTrace :=
  if url = "" then
    { posts := 0, delivered := false }
  else
    match requests_post outcome with
    | .ok r => { posts := 1, delivered := r.1 }
    | .error _ => { posts := 1, delivered := false }

/-- What `check_for_drift_and_alert` did: whether it took the alert branch
(composed a message and invoked the dispatcher), and the dispatcher trace. -/
structure AlertTrace where
  alertAttempted : Bool
  slack : SlackTrace
deriving Repr, DecidableEq

/-- `check_for_drift_and_alert`: strict comparison
`num_drifted_features > DRIFT_THRESHOLD`; when it holds the message is
composed and `send_slack_alert` called, otherwise nothing happens. -/
def check_for_drift_and_alert (cfg : Config) (num_drifted_features : Nat)
    (outcome : PostOutcome) : AlertTrace :=
  if (num_drifted_features : Rat) > cfg.drift_threshold then
    { alertAttempted := true
      slack := send_slack_alert cfg.slack_webhook_url outcome }
  else
    { alertAttempted := false
      slack := { posts := 0, delivered := false } }

/-! ## Metrics Recorder + alerting step (`process_and_log_metrics`) -/

/-- What one `process_and_log_metrics` call did: the rows committed to the
metrics store (the `db.add_all`/`db.commit` transaction writes both rows or,
after rollback, none) and the alerting trace that follows. -/
structure RecorderTrace where
  written : List MonitoringMetric
  alert : AlertTrace
deriving Repr, DecidableEq

/-- `process_and_log_metrics`: extracts the drift fields from the report,
builds the two rows, commits both in one transaction (`add_all` of the pair
then `commit`; on failure `rollback` leaves neither written), and then
— unconditionally, success or rollback — evaluates the alert threshold on
the in-memory `num_drifted_features`. -/
def process_and_log_metrics (cfg : Config) (report : ReportDict)
    (s e ts1 ts2 : Int) (commitOk : Bool) (outcome : PostOutcome) :
    RecorderTrace :=
  let drift_log := mk_drift_log cfg report ts1 s e
  let count_log := mk_count_log cfg report ts2 s e
  let written := if commitOk then [drift_log, count_log] else []
  { written := written
    alert := check_for_drift_and_alert cfg report.number_of_drifted_features outcome }

/-! ## Orchestrator (`main_monitoring_job`) -/

/-- Everything outside the job's own control on one invocation: whether the
reference CSV exists, the contents of `prediction_logs`, the clock, the
fetch-query outcome, the Evidently verdict, the commit outcome and the
webhook outcome.  `ts1`/`ts2` are the `datetime.now()` values stamped on the
two metric rows. -/
structure World where
  cfg : Config
  reference_exists : Bool
  reference_rows : Nat
  db : List PredictionLog
  now : Int
  fetchFailure : Option FetchFailure
  verdict : Bool × Nat
  commitOk : Bool
  postOutcome : PostOutcome
  ts1 : Int
  ts2 : Int

/-- How one invocation of the script ended.  The Python function has only
plain `return` statements (line 161 and the end of the body) and every
exception-capable step inside it is wrapped in its own handler, so each
branch records which `return` was taken; none raises `SystemExit` or lets an
exception escape. -/
inductive JobResult where
  | abortedMissingReference
  | skippedEmpty
  | completed
deriving Repr, DecidableEq

/-- The observable effects of one `main_monitoring_job` invocation. -/
structure JobTrace where
  result : JobResult
  fetchRan : Bool
  detectorRan : Bool
  written : List MonitoringMetric
  alertAttempted : Bool
  webhookPosts : Nat
deriving Repr, DecidableEq

/-- `main_monitoring_job`: load reference (early `return` when the CSV is
missing — before any fetch, detection, metric write or alert), fetch the
window, skip when empty (`current_data.empty` → `return`), otherwise run the
report, record metrics and evaluate the alert. -/
def main_monitoring_job (w : World) : JobTrace :=
  if ¬ w.reference_exists then
    { result := .abortedMissingReference
      fetchRan := false
      detectorRan := false
      written := []
      alertAttempted := false
      webhookPosts := 0 }
  else
    let fetched := fetch_data_from_db w.db w.now w.cfg.batch_hours w.fetchFailure
    let current_data := fetched.1
    let start_time := fetched.2.1
    let end_time := fetched.2.2
    if current_data.isEmpty then
      { result := .skippedEmpty
        fetchRan := true
        detectorRan := false
        written := []
        alertAttempted := false
        webhookPosts := 0 }
    else
      let report := run_evidently_report w.verdict current_data.length
      let rec_trace := process_and_log_metrics w.cfg report start_time end_time
        w.ts1 w.ts2 w.commitOk w.postOutcome
      { result := .completed
        fetchRan := true
        detectorRan := true
        written := rec_trace.written
        alertAttempted := rec_trace.alert.alertAttempted
        webhookPosts := rec_trace.alert.slack.posts }

/-- The script's process exit status for one invocation: `main_monitoring_job`
ends with a plain `return` on every path (no `sys.exit`, no uncaught
exception in any branch), so the interpreter exits 0 regardless of which
`JobResult` was taken. -/
def script_exit_code : JobResult → Nat
  | .abortedMissingReference => 0
  | .skippedEmpty => 0
  | .completed => 0

/-! ## Path characterizations of the orchestrator -/

/-- Shorthand for the rows the Window Fetcher hands the orchestrator. -/
def fetchedRows (w : World) : List PredictionLog :=
  (fetch_data_from_db w.db w.now w.cfg.batch_hours w.fetchFailure).1

theorem main_missing_reference (w : World) (h : w.reference_exists = false) :
    main_monitoring_job w =
      { result := .abortedMissingReference
        fetchRan := false
        detectorRan := false
        written := []
        alertAttempted := false
        webhookPosts := 0 } := by
  simp [main_monitoring_job, h]

theorem main_empty_window (w : World) (hr : w.reference_exists = true)
    (he : fetchedRows w = []) :
    main_monitoring_job w =
      { result := .skippedEmpty
        fetchRan := true
        detectorRan := false
        written := []
        alertAttempted := false
        webhookPosts := 0 } := by
  unfold fetchedRows at he
  simp [main_monitoring_job, hr, List.isEmpty_iff, he]

theorem main_completed_trace (w : World) (hr : w.reference_exists = true)
    (hne : fetchedRows w ≠ []) :
    main_monitoring_job w =
      (let fetched := fetch_data_from_db w.db w.now w.cfg.batch_hours w.fetchFailure
       let report := run_evidently_report w.verdict fetched.1.length
       let rec_trace := process_and_log_metrics w.cfg report fetched.2.1 fetched.2.2
          w.ts1 w.ts2 w.commitOk w.postOutcome
       { result := .completed
         fetchRan := true
         detectorRan := true
         written := rec_trace.written
         alertAttempted := rec_trace.alert.alertAttempted
         webhookPosts := rec_trace.alert.slack.posts }) := by
  unfold fetchedRows at hne
  simp [main_monitoring_job, hr, List.isEmpty_iff, hne]

theorem completed_shape (w : World)
    (h : (main_monitoring_job w).result = .completed) :
    w.reference_exists = true ∧ fetchedRows w ≠ [] := by
  by_cases hr : w.reference_exists
  · by_cases hne : fetchedRows w = []
    · rw [main_empty_window w hr hne] at h
      exact absurd h (by simp)
    · exact ⟨hr, hne⟩
  · rw [main_missing_reference w (by simpa using hr)] at h
    exact absurd h (by simp)

/-! ## Claim theorems -/

/-- A database whose single record's timestamp equals the fetch's `end_time`
(`now = 1000`). -/
def boundaryDb : List PredictionLog :=
  [{ feature_1 := 0, feature_2 := 0, prediction := 0, target := none,
     prediction_time := 1000 }]

/-- C4 counterexample: the fetch query uses SQL `BETWEEN`, which is inclusive
at both bounds, so a record whose timestamp equals `end_time` is returned —
the claimed half-open window `[start_time, end_time)` would exclude it.  At
`now = 1000`, lookback 24 h, a record stamped exactly 1000 is fetched while
the half-open window of the claim is empty. -/
theorem fetch_includes_end_time_record :
    (fetch_data_from_db boundaryDb 1000 24 none).1 = boundaryDb ∧
    specHalfOpenWindow boundaryDb 1000 24 = [] := by
  decide

/-- C4 (amended): for every lookback duration the Window Fetcher returns
exactly the records whose timestamp lies in the closed interval
`[start_time, end_time]` with `end_time = now()` and
`start_time = end_time - lookback`; a record with timestamp equal to
`end_time` is included. -/
theorem fetch_window_closed_interval (db : List PredictionLog)
    (now lookback_hours : Int) (r : PredictionLog) :
    r ∈ (fetch_data_from_db db now lookback_hours none).1 ↔
      r ∈ db ∧ now - lookback_hours * 3600 ≤ r.prediction_time ∧
        r.prediction_time ≤ now := by
  simp [fetch_data_from_db, run_query, List.mem_filter, and_assoc]

/-- C5: on every fetch failure (operational or other) the Window Fetcher
returns normally with an empty result set paired with the same
`(start_time, end_time)` bounds it computed before the query; the bounds are
the same pair every outcome gets. -/
theorem fetch_failure_empty_same_bounds (db : List PredictionLog)
    (now lookback_hours : Int) (f : FetchFailure) :
    fetch_data_from_db db now lookback_hours (some f)
      = ([], now - lookback_hours * 3600, now) ∧
    ∀ o : Option FetchFailure,
      (fetch_data_from_db db now lookback_hours o).2
        = (now - lookback_hours * 3600, now) := by
  refine ⟨rfl, ?_⟩
  intro o
  cases o <;> rfl

/-- C1: when the fetched window contains zero rows, the cycle ends right
after the fetch: the detector never runs, no MonitoringMetric row is
written, and no alert is evaluated or posted. -/
theorem empty_window_no_side_effects (w : World)
    (hr : w.reference_exists = true) (he : fetchedRows w = []) :
    (main_monitoring_job w).result = .skippedEmpty ∧
    (main_monitoring_job w).detectorRan = false ∧
    (main_monitoring_job w).written = [] ∧
    (main_monitoring_job w).alertAttempted = false ∧
    (main_monitoring_job w).webhookPosts = 0 := by
  rw [main_empty_window w hr he]
  exact ⟨rfl, rfl, rfl, rfl, rfl⟩

/-- A world whose production table is empty. -/
def emptyWindowWorld : World :=
  { cfg := defaultConfig
    reference_exists := true
    reference_rows := 100
    db := []
    now := 5000
    fetchFailure := none
    verdict := (false, 0)
    commitOk := true
    postOutcome := .resp true 200
    ts1 := 5001
    ts2 := 5002 }

/-- C1 witness: the empty-window theorem at a concrete world. -/
theorem empty_window_no_side_effects_witness :
    (main_monitoring_job emptyWindowWorld).result = .skippedEmpty ∧
    (main_monitoring_job emptyWindowWorld).detectorRan = false ∧
    (main_monitoring_job emptyWindowWorld).written = [] ∧
    (main_monitoring_job emptyWindowWorld).alertAttempted = false ∧
    (main_monitoring_job emptyWindowWorld).webhookPosts = 0 :=
  empty_window_no_side_effects emptyWindowWorld rfl (by decide)

/-- C2: every non-skipped cycle appends exactly the two rows
`data_drift_summary` and `prediction_count` in one transaction when the
commit succeeds, and none when it fails (the rollback removes both); the
written batch never has exactly one row. -/
theorem recorder_two_rows_atomic (w : World)
    (h : (main_monitoring_job w).result = .completed) :
    (w.commitOk = true →
      (main_monitoring_job w).written.map MonitoringMetric.metric_name
        = ["data_drift_summary", "prediction_count"]) ∧
    (w.commitOk = false → (main_monitoring_job w).written = []) ∧
    (main_monitoring_job w).written.length ≠ 1 := by
  obtain ⟨hr, hne⟩ := completed_shape w h
  rw [main_completed_trace w hr hne]
  cases hc : w.commitOk <;>
    simp [process_and_log_metrics, mk_drift_log, mk_count_log, hc]

/-- A world with one in-window record, a successful commit and a drifted
verdict. -/
def commitWorld : World :=
  { cfg := defaultConfig
    reference_exists := true
    reference_rows := 100
    db := [{ feature_1 := 1, feature_2 := 2, prediction := 0, target := none,
             prediction_time := 900 }]
    now := 1000
    fetchFailure := none
    verdict := (true, 2)
    commitOk := true
    postOutcome := .resp true 200
    ts1 := 1001
    ts2 := 1002 }

/-- C2 witness: the atomic-pair theorem at a concrete completed world. -/
theorem recorder_two_rows_atomic_witness :
    (commitWorld.commitOk = true →
      (main_monitoring_job commitWorld).written.map MonitoringMetric.metric_name
        = ["data_drift_summary", "prediction_count"]) ∧
    (commitWorld.commitOk = false → (main_monitoring_job commitWorld).written = []) ∧
    (main_monitoring_job commitWorld).written.length ≠ 1 :=
  recorder_two_rows_atomic commitWorld (by decide)

/-- C3: in a non-skipped cycle the alert branch is taken iff
`num_drifted_features` strictly exceeds the configured threshold; with
threshold 2 and exactly 2 drifted features no alert is attempted, and with
the default threshold 0 any drifted count of at least 1 triggers one. -/
theorem alert_iff_above_threshold (w : World)
    (h : (main_monitoring_job w).result = .completed) :
    ((main_monitoring_job w).alertAttempted = true ↔
      (w.verdict.2 : Rat) > w.cfg.drift_threshold) ∧
    (∀ cfg : Config, ∀ num : Nat, ∀ o : PostOutcome,
      cfg.drift_threshold = 2 → num = 2 →
      (check_for_drift_and_alert cfg num o).alertAttempted = false) ∧
    (∀ num : Nat, ∀ o : PostOutcome, 1 ≤ num →
      (check_for_drift_and_alert defaultConfig num o).alertAttempted = true) := by
  obtain ⟨hr, hne⟩ := completed_shape w h
  rw [main_completed_trace w hr hne]
  refine ⟨?_, ?_, ?_⟩
  · simp only [check_for_drift_and_alert, run_evidently_report,
      process_and_log_metrics]
    split <;> simp_all
  · intro cfg num o h2 hn2
    simp [check_for_drift_and_alert, h2, hn2]
  · intro num o h1
    have : (0 : Rat) < (num : Rat) := by exact_mod_cast h1
    simp [check_for_drift_and_alert, defaultConfig, this]

/-- C3 witness: at `commitWorld`-like data, threshold 0 and 2 drifted
features, the alert branch is taken. -/
theorem alert_iff_above_threshold_witness :
    ((main_monitoring_job commitWorld).alertAttempted = true ↔
      ((commitWorld.verdict.2 : Rat) > commitWorld.cfg.drift_threshold)) ∧
    (∀ cfg : Config, ∀ num : Nat, ∀ o : PostOutcome,
      cfg.drift_threshold = 2 → num = 2 →
      (check_for_drift_and_alert cfg num o).alertAttempted = false) ∧
    (∀ num : Nat, ∀ o : PostOutcome, 1 ≤ num →
      (check_for_drift_and_alert defaultConfig num o).alertAttempted = true) :=
  alert_iff_above_threshold commitWorld (by decide)

/-- C6: a metrics-persistence failure is non-fatal: with the commit failing
the cycle writes nothing, yet the alert-threshold evaluation still runs on
the in-memory drift summary and decides exactly as it would with a
successful commit. -/
theorem persistence_failure_still_alerts (w : World)
    (h : (main_monitoring_job w).result = .completed)
    (hc : w.commitOk = false) :
    (main_monitoring_job w).written = [] ∧
    ((main_monitoring_job w).alertAttempted = true ↔
      (w.verdict.2 : Rat) > w.cfg.drift_threshold) ∧
    (main_monitoring_job w).alertAttempted
      = (main_monitoring_job { w with commitOk := true }).alertAttempted := by
  obtain ⟨hr, hne⟩ := completed_shape w h
  have hr' : ({ w with commitOk := true } : World).reference_exists = true := hr
  have hne' : fetchedRows { w with commitOk := true } ≠ [] := hne
  rw [main_completed_trace w hr hne,
    main_completed_trace { w with commitOk := true } hr' hne']
  refine ⟨by simp [process_and_log_metrics, hc], ?_, by rfl⟩
  simp only [check_for_drift_and_alert, run_evidently_report,
    process_and_log_metrics]
  split <;> simp_all

/-- The commit-failure variant of `commitWorld`. -/
def rollbackWorld : World :=
  { commitWorld with commitOk := false }

/-- C6 witness: the non-fatal-persistence theorem at a concrete world whose
commit fails. -/
theorem persistence_failure_still_alerts_witness :
    (main_monitoring_job rollbackWorld).written = [] ∧
    ((main_monitoring_job rollbackWorld).alertAttempted = true ↔
      ((rollbackWorld.verdict.2 : Rat) > rollbackWorld.cfg.drift_threshold)) ∧
    (main_monitoring_job rollbackWorld).alertAttempted
      = (main_monitoring_job { rollbackWorld with commitOk := true }).alertAttempted :=
  persistence_failure_still_alerts rollbackWorld (by decide) rfl

theorem slack_posts_le_one (url : String) (o : PostOutcome) :
    (send_slack_alert url o).posts ≤ 1 := by
  unfold send_slack_alert requests_post
  split
  · exact Nat.zero_le 1
  · cases o <;> simp

theorem alert_posts_le_one (cfg : Config) (num : Nat) (o : PostOutcome) :
    (check_for_drift_and_alert cfg num o).slack.posts ≤ 1 := by
  unfold check_for_drift_and_alert
  split
  · exact slack_posts_le_one cfg.slack_webhook_url o
  · exact Nat.zero_le 1

/-- C7: alert delivery is best-effort: with no webhook URL the dispatcher is
a silent no-op (zero posts, normal return); with a URL, a raised network
error or timeout is caught and the dispatcher still returns normally with
one post and no delivery, a response (success or non-success status) also
returns normally; and every cycle makes at most one webhook post. -/
theorem alert_delivery_best_effort :
    (∀ o : PostOutcome, send_slack_alert "" o = { posts := 0, delivered := false }) ∧
    (∀ url msg : String, url ≠ "" →
      send_slack_alert url (.raised msg) = { posts := 1, delivered := false }) ∧
    (∀ url : String, ∀ ok : Bool, ∀ status : Nat, url ≠ "" →
      send_slack_alert url (.resp ok status) = { posts := 1, delivered := ok }) ∧
    (∀ w : World, (main_monitoring_job w).webhookPosts ≤ 1) := by
  refine ⟨?_, ?_, ?_, ?_⟩
  · intro o
    simp [send_slack_alert]
  · intro url msg hurl
    simp [send_slack_alert, requests_post, hurl]
  · intro url ok status hurl
    simp [send_slack_alert, requests_post, hurl]
  · intro w
    by_cases hr : w.reference_exists
    · by_cases hne : fetchedRows w = []
      · rw [main_empty_window w hr hne]
        exact Nat.zero_le 1
      · rw [main_completed_trace w hr hne]
        exact alert_posts_le_one _ _ _
    · rw [main_missing_reference w (by simpa using hr)]
      exact Nat.zero_le 1

/-- C7 witness: the best-effort properties at a concrete URL, a raised
network error, and a non-success response. -/
theorem alert_delivery_best_effort_witness :
    send_slack_alert "" (.raised "timeout") = { posts := 0, delivered := false } ∧
    send_slack_alert "hook" (.raised "timeout") = { posts := 1, delivered := false } ∧
    send_slack_alert "hook" (.resp false 500) = { posts := 1, delivered := false } ∧
    (main_monitoring_job commitWorld).webhookPosts ≤ 1 :=
  ⟨alert_delivery_best_effort.1 (.raised "timeout"),
   alert_delivery_best_effort.2.1 "hook" "timeout" (by decide),
   alert_delivery_best_effort.2.2.1 "hook" false 500 (by decide),
   alert_delivery_best_effort.2.2.2 commitWorld⟩

/-- A world whose reference CSV is missing while the production table holds
fresh, drifted data. -/
def noReferenceWorld : World :=
  { cfg := defaultConfig
    reference_exists := false
    reference_rows := 0
    db := [{ feature_1 := 1, feature_2 := 2, prediction := 0, target := none,
             prediction_time := 900 }]
    now := 1000
    fetchFailure := none
    verdict := (true, 5)
    commitOk := true
    postOutcome := .resp true 200
    ts1 := 1001
    ts2 := 1002 }

/-- C8 counterexample: with the reference file missing the job takes the
early `return` (no fetch, no rows, no alert) but the script's exit status is
0 — the same outcome as a completed cycle — because `main_monitoring_job`
only ever returns normally; no non-zero process-level failure signal
exists. -/
theorem missing_reference_exit_zero :
    (main_monitoring_job noReferenceWorld).result = .abortedMissingReference ∧
    script_exit_code (main_monitoring_job noReferenceWorld).result = 0 ∧
    script_exit_code (main_monitoring_job noReferenceWorld).result
      = script_exit_code .completed := by
  decide

/-- C8 (amended): when the reference dataset source is missing the cycle
aborts before any comparison, fetch, metric write or alert, with a logged
early return; but this abort does not surface as a non-zero process outcome
— the script exits 0 on every path, the missing-reference one included. -/
theorem missing_reference_aborts_early (w : World)
    (h : w.reference_exists = false) :
    (main_monitoring_job w).result = .abortedMissingReference ∧
    (main_monitoring_job w).fetchRan = false ∧
    (main_monitoring_job w).detectorRan = false ∧
    (main_monitoring_job w).written = [] ∧
    (main_monitoring_job w).alertAttempted = false ∧
    (main_monitoring_job w).webhookPosts = 0 ∧
    ∀ w' : World, script_exit_code (main_monitoring_job w').result = 0 := by
  rw [main_missing_reference w h]
  refine ⟨rfl, rfl, rfl, rfl, rfl, rfl, ?_⟩
  intro w'
  cases (main_monitoring_job w').result <;> rfl

/-- C8 witness: the early-abort theorem at the concrete missing-reference
world. -/
theorem missing_reference_aborts_early_witness :
    (main_monitoring_job noReferenceWorld).fetchRan = false ∧
    (main_monitoring_job noReferenceWorld).written = [] ∧
    (main_monitoring_job noReferenceWorld).alertAttempted = false :=
  let h := missing_reference_aborts_early noReferenceWorld rfl
  ⟨h.2.1, h.2.2.2.1, h.2.2.2.2.1⟩

/-- C9: only the declared input features `feature_1` and `feature_2` take
part in the drift comparison: the column mapping passed to the report
declares exactly those two numerical features with no prediction and no
target column, and for every pair of dataframes the `prediction` column has
been dropped from the report's input while both declared features are
present. -/
theorem drift_comparison_excludes_prediction_target (ref cur : List String) :
    comparisonColumns report_column_mapping = ["feature_1", "feature_2"] ∧
    ¬ "prediction" ∈ comparisonColumns report_column_mapping ∧
    ¬ "target" ∈ comparisonColumns report_column_mapping ∧
    ¬ "prediction" ∈ report_input_cols ref ∧
    ¬ "prediction" ∈ report_input_cols cur ∧
    "feature_1" ∈ report_input_cols ref ∧
    "feature_2" ∈ report_input_cols ref ∧
    "feature_1" ∈ report_input_cols cur ∧
    "feature_2" ∈ report_input_cols cur := by
  refine ⟨by decide, by decide, by decide, ?_, ?_, ?_, ?_, ?_, ?_⟩ <;>
    simp [report_input_cols, drop_prediction_column, ensure_required_features,
      List.mem_filter, List.mem_append] <;>
    by_cases h1 : "feature_1" ∈ ref <;>
    by_cases h2 : "feature_2" ∈ ref <;>
    by_cases h3 : "feature_1" ∈ cur <;>
    by_cases h4 : "feature_2" ∈ cur <;>
    simp_all

/-- C10: in every successful cycle the written batch is the summary row
followed by the count row; the `prediction_count` row carries
`data_drift_score = 0` and `num_drifted_features = 0` whatever the detector's
verdict, with `metric_value` the current window's row count, while the drift
information (score and drifted-feature count) sits only on the
`data_drift_summary` row. -/
theorem count_row_fixed_fields (w : World)
    (h : (main_monitoring_job w).result = .completed)
    (hc : w.commitOk = true) :
    ∃ summary count : MonitoringMetric,
      (main_monitoring_job w).written = [summary, count] ∧
      count.metric_name = "prediction_count" ∧
      count.data_drift_score = 0 ∧
      count.num_drifted_features = 0 ∧
      count.metric_value = ((fetchedRows w).length : Rat) ∧
      count.report_summary = none ∧
      summary.metric_name = "data_drift_summary" ∧
      summary.num_drifted_features = w.verdict.2 ∧
      summary.data_drift_score = (if w.verdict.1 then (1 : Rat) else 0) := by
  obtain ⟨hr, hne⟩ := completed_shape w h
  rw [main_completed_trace w hr hne]
  refine ⟨mk_drift_log w.cfg
      (run_evidently_report w.verdict (fetchedRows w).length) w.ts1
      (fetch_data_from_db w.db w.now w.cfg.batch_hours w.fetchFailure).2.1
      (fetch_data_from_db w.db w.now w.cfg.batch_hours w.fetchFailure).2.2,
    mk_count_log w.cfg
      (run_evidently_report w.verdict (fetchedRows w).length) w.ts2
      (fetch_data_from_db w.db w.now w.cfg.batch_hours w.fetchFailure).2.1
      (fetch_data_from_db w.db w.now w.cfg.batch_hours w.fetchFailure).2.2,
    ?_, rfl, rfl, rfl, rfl, rfl, rfl, rfl, rfl⟩
  simp [process_and_log_metrics, hc, fetchedRows]

/-- C10 witness: the count-row theorem at a concrete completed world. -/
theorem count_row_fixed_fields_witness :
    ∃ summary count : MonitoringMetric,
      (main_monitoring_job commitWorld).written = [summary, count] ∧
      count.metric_name = "prediction_count" ∧
      count.data_drift_score = 0 ∧
      count.num_drifted_features = 0 ∧
      count.metric_value = ((fetchedRows commitWorld).length : Rat) ∧
      count.report_summary = none ∧
      summary.metric_name = "data_drift_summary" ∧
      summary.num_drifted_features = commitWorld.verdict.2 ∧
      summary.data_drift_score = (if commitWorld.verdict.1 then (1 : Rat) else 0) :=
  count_row_fixed_fields commitWorld (by decide) rfl

end Vigil
